import Mathlib

/-
Verification of the ENSO Foundation report pipeline (report_dashboard.py
and telegram_report.py): a shallow embedding of the exchange-volume
normalizer, the vesting projector, the holdings aggregator and the
staking-rewards projection, together with theorems checking the
documented properties of those components against the embedded code.

Conventions used throughout:
* Python floats are modelled as ℚ (the properties under study are
  algebraic, not about binary rounding);
* candle dates are modelled as ℕ ordinal days, rewards-schedule dates as
  ℕ in yyyymmdd encoding (both encodings are order-isomorphic to the
  calendar dates the source manipulates);
* Unix timestamps are ℤ;
* every network fetch is abstracted as an already-fetched value: the
  source converts each fetch failure to 0 / empty before the logic
  modelled here runs, so the fetched values are simply inputs here.
-/

/-! ## Vesting projector (report_dashboard.py, lines 59-64 and 199-209) -/

/-- One entry of the `VESTING_SCHEDULES` configuration table: a named
linear vesting schedule with start/end Unix timestamps and a total
allocation.  The source's key `end` is a Lean keyword, so it is embedded
as the field `vend`. -/
structure Schedule where
  name : String
  start : ℤ
  vend : ℤ
  total : ℚ
  deriving DecidableEq

/-- The `VESTING_SCHEDULES` constant of report_dashboard.py. -/
def VESTING_SCHEDULES : List Schedule :=
  [{ name := "Vesting Contract", start := 1760434200, vend := 1823506200, total := 14605000 },
   { name := "Operational 1", start := 1760434200, vend := 1886578200, total := 4020000 },
   { name := "Operational 2", start := 1760434200, vend := 1774690200, total := 1230000 },
   { name := "Operational 3", start := 1760434200, vend := 1773394200, total := 1750000 }]

/-- Python's built-in `round` on the value `total` computed by
`calculate_vesting_projection`: round to the nearest integer, ties to the
even integer (banker's rounding). -/
def pyRound (q : ℚ) : ℤ :=
  if q - Rat.floor q < 1/2 then Rat.floor q
  else if (1 : ℚ)/2 < q - Rat.floor q then Rat.floor q + 1
  else if Rat.floor q % 2 = 0 then Rat.floor q else Rat.floor q + 1

/-- The per-schedule amount the spec calls a schedule's `contribution`:
`rate × (effective_end − now)` when `effective_end = min(target, end)`
lies strictly after `now`, and `0` otherwise, with
`rate = total / (end − start)`. -/
def contribution (now_ts target_ts : ℤ) (v : Schedule) : ℚ :=
  if min target_ts v.vend > now_ts then
    (v.total / ((v.vend - v.start : ℤ) : ℚ)) * (((min target_ts v.vend) - now_ts : ℤ) : ℚ)
  else 0

/-- Embeds `calculate_vesting_projection` (report_dashboard.py lines
199-209).  The source parses a target date string to `target_ts`, reads
`now_ts` from the clock and iterates the module constant
`VESTING_SCHEDULES`; here the two timestamps and the schedule list are
explicit arguments.  The loop accumulates `total` and the result is
`round(total)`, applied once at the end. -/
def calculate_vesting_projection (now_ts target_ts : ℤ) (schedules : List Schedule) : ℤ :=
  pyRound (schedules.foldl
    (fun total v =>
      let rate : ℚ := v.total / ((v.vend - v.start : ℤ) : ℚ)
      let effective_end : ℤ := min target_ts v.vend
      if effective_end > now_ts then total + rate * ((effective_end - now_ts : ℤ) : ℚ)
      else total)
    0)

/-! ## Exchange volume normalizer (report_dashboard.py, lines 213-230) -/

/-- The common per-exchange result record built by `_rolling_7day`. -/
structure VolumeSample where
  exchange : String
  volume_7d : ℚ
  avg_daily : ℚ
  wow_pct : Option ℚ
  deriving DecidableEq

/-- Insert one `(date, quote_volume)` pair into a date-sorted list,
after every pair carrying a strictly smaller date and before the pairs
with an equal or larger date. -/
def insertByDate (a : ℕ × ℚ) : List (ℕ × ℚ) → List (ℕ × ℚ)
  | [] => [a]
  | b :: t => if b.1 < a.1 then b :: insertByDate a t else a :: b :: t

/-- Stable sort of `(date, quote_volume)` pairs ascending by date: the
semantics of the source's `filtered.sort(key=lambda x: x[0])` (Python's
list sort is stable, so pairs with equal dates keep their input order). -/
def sortByDate : List (ℕ × ℚ) → List (ℕ × ℚ)
  | [] => []
  | a :: t => insertByDate a (sortByDate t)

/-- Embeds `_rolling_7day` (report_dashboard.py lines 213-230).  `today`
is the current UTC date; the source computes it from the clock.  Note
that the source sorts the qualifying pairs by date but never merges
pairs sharing a date. -/
def rolling_7day (today : ℕ) (daily_volumes : List (ℕ × ℚ)) (exchange : String) :
    Option VolumeSample :=
  if daily_volumes.length < 7 then none
  else
    let filtered := sortByDate (daily_volumes.filter (fun p => p.1 < today))
    if filtered.length < 7 then none
    else
      let current := filtered.drop (filtered.length - 7)
      let cur_vol := (current.map Prod.snd).sum
      let wow : Option ℚ :=
        if 14 ≤ filtered.length then
          let prev := (filtered.drop (filtered.length - 14)).take 7
          let prev_vol := (prev.map Prod.snd).sum
          if 0 < prev_vol then some ((cur_vol - prev_vol) / prev_vol * 100) else none
        else none
      some { exchange := exchange, volume_7d := cur_vol, avg_daily := cur_vol / 7,
             wow_pct := wow }

/-- Collapse consecutive pairs sharing a date to the last pair of the
run; on a date-sorted list this keeps exactly the latest value fed in
for each date. -/
def dedupKeepLast : List (ℕ × ℚ) → List (ℕ × ℚ)
  | [] => []
  | [a] => [a]
  | a :: b :: t => if a.1 = b.1 then dedupKeepLast (b :: t) else a :: dedupKeepLast (b :: t)

/-- Modelled from the spec's words for the volume normalizer: "sort
ascending by date, deduplicate by keeping latest value per date if
duplicates occur" and "fail ... if fewer than 7 qualifying days remain",
with the window sums taken over the deduplicated per-day sequence.  Used
only to compare the source's `_rolling_7day` against the spec's
description. -/
def rolling_7day_spec (today : ℕ) (daily_volumes : List (ℕ × ℚ)) (exchange : String) :
    Option VolumeSample :=
  let days := dedupKeepLast (sortByDate (daily_volumes.filter (fun p => p.1 < today)))
  if days.length < 7 then none
  else
    let current := days.drop (days.length - 7)
    let cur_vol := (current.map Prod.snd).sum
    let wow : Option ℚ :=
      if 14 ≤ days.length then
        let prev := (days.drop (days.length - 14)).take 7
        let prev_vol := (prev.map Prod.snd).sum
        if 0 < prev_vol then some ((cur_vol - prev_vol) / prev_vol * 100) else none
      else none
    some { exchange := exchange, volume_7d := cur_vol, avg_daily := cur_vol / 7,
           wow_pct := wow }

/-! ## Holdings aggregator (report_dashboard.py lines 47-54, 121-141,
669-724; telegram_report.py lines 49-56, 190-206, 271-310) -/

/-- One staked position as consumed by the aggregators: `is_expired` is
set by `get_staked_positions` as `expiry ≤ now` at fetch time (a position
exactly at the boundary counts as expired). -/
structure Position where
  pid : ℤ
  deposit : ℚ
  expiry_ts : ℤ
  is_expired : Bool

/-- The already-fetched on-chain values consumed by one aggregator run.
Each field abstracts one family of HTTP fetches of the source; the
source's fetch helpers return 0 (or an empty list) on any failure, so a
failed fetch is represented by the value 0 here. -/
structure Fetch where
  tokenBalance : String → ℚ
  bscBalance : String → ℚ
  vestedUnclaimed : String → ℚ
  positions : List Position
  posRewards : ℤ → ℚ

/-- The result of `get_vesting_info` (report_dashboard.py lines 121-141
and, identically, telegram_report.py lines 190-206). -/
structure VestingInfo where
  balance : ℚ
  vested_unclaimed : ℚ
  locked : ℚ
  deriving DecidableEq

/-- Embeds `get_vesting_info`: fetch the contract's token balance and
its claimable ("vested unclaimed") amount, and derive
`locked = max(0, balance - vested_unclaimed)`. -/
def get_vesting_info (f : Fetch) (contract : String) : VestingInfo :=
  let balance := f.tokenBalance contract
  let vested_unclaimed := f.vestedUnclaimed contract
  { balance := balance, vested_unclaimed := vested_unclaimed,
    locked := max 0 (balance - vested_unclaimed) }

/-- The role tag of a configured wallet. -/
inductive WalletType where
  | liquid
  | vesting
  deriving DecidableEq

/-- The `FOUNDATION_WALLETS` configuration table (identical in both
source files): name, address, role. -/
def FOUNDATION_WALLETS : List (String × String × WalletType) :=
  [("treasury", "0x715b1ddf5d6da6846eadb72d3d6f9d93148d0bb0", WalletType.liquid),
   ("vesting_contract", "0x4110d73ff4d4fe45af2762df2205ad95c8c9679b", WalletType.vesting),
   ("operational", "0xd782d294bc3e8b1a32ec9283b02893fd932d3ece", WalletType.liquid),
   ("vesting_operational_1", "0x3dea6f0f4d3fcd9a706e8b6b0750ab2f57dec17a", WalletType.vesting),
   ("vesting_operational_2", "0x332e5b70e451bdeebd36b5d3442827aa52a42f80", WalletType.vesting),
   ("vesting_operational_3", "0xa3314896ae22caf4bfdcb0bd4c3cabce324d8f3e", WalletType.vesting)]

/-- The `results` record both `load_holdings` implementations build
(wallet-detail bookkeeping and the stored position list, which no total
depends on, are not modelled).  `mm_holdings` is only set by the
Telegram variant. -/
structure Holdings where
  liquid : ℚ := 0
  liquid_bsc : ℚ := 0
  vested_unclaimed : ℚ := 0
  locked_vesting : ℚ := 0
  staked_total : ℚ := 0
  staked_expired : ℚ := 0
  staked_locked : ℚ := 0
  rewards : ℚ := 0
  mm_holdings : ℚ := 0
  total_sellable : ℚ := 0
  total_holdings : ℚ := 0

/-- The wallet-iteration loop shared verbatim by the two aggregators
(report_dashboard.py lines 676-715, telegram_report.py lines 277-299):
vesting wallets accumulate `vested_unclaimed` and `locked_vesting`;
liquid wallets accumulate the two chain balances; the `treasury` wallet
additionally loads the staked positions, their per-position rewards, and
the expired/locked split of the staked deposits. -/
def foldWallets (f : Fetch) : Holdings :=
  FOUNDATION_WALLETS.foldl
    (fun acc w =>
      match w.2.2 with
      | WalletType.vesting =>
          let vi := get_vesting_info f w.2.1
          { acc with
            vested_unclaimed := acc.vested_unclaimed + vi.vested_unclaimed,
            locked_vesting := acc.locked_vesting + vi.locked }
      | WalletType.liquid =>
          let bal := f.tokenBalance w.2.1
          let bsc_bal := f.bscBalance w.2.1
          let acc2 := { acc with
            liquid := acc.liquid + bal,
            liquid_bsc := acc.liquid_bsc + bsc_bal }
          if w.1 = "treasury" then
            { acc2 with
              staked_total := (f.positions.map Position.deposit).sum,
              staked_expired :=
                ((f.positions.filter (fun p => p.is_expired)).map Position.deposit).sum,
              staked_locked :=
                ((f.positions.filter (fun p => ! p.is_expired)).map Position.deposit).sum,
              rewards := (f.positions.map (fun p => f.posRewards p.pid)).sum }
          else acc2)
    {}

namespace Dashboard

/-- Embeds `load_holdings(api_key)` of report_dashboard.py (lines
669-724): run the wallet loop, then set the two derived totals.  Market
makers are not part of this function. -/
def load_holdings (f : Fetch) : Holdings :=
  let r := foldWallets f
  { r with
    total_sellable := r.liquid + r.liquid_bsc + r.vested_unclaimed
      + r.staked_expired + r.rewards,
    total_holdings := r.liquid + r.liquid_bsc + r.vested_unclaimed
      + r.locked_vesting + r.staked_total + r.rewards }

/-- Embeds the presentation-time adjustment `total_holdings_adj =
holdings["total_holdings"] + mm_holdings` (report_dashboard.py line
823), where `mm_holdings` is the manual market-maker input. -/
def total_holdings_adj (h : Holdings) (mm_holdings : ℚ) : ℚ :=
  h.total_holdings + mm_holdings

/-- Embeds `total_sellable_adj = holdings["total_sellable"]`
(report_dashboard.py line 824): market makers are not added to the
sellable total. -/
def total_sellable_adj (h : Holdings) : ℚ :=
  h.total_sellable

end Dashboard

namespace Telegram

/-- The `MM_DEFAULTS` constant of telegram_report.py (line 58). -/
def MM_DEFAULTS : List (String × ℚ) :=
  [("amber", 330940), ("jpeg", 537202)]

/-- Embeds `load_holdings()` of telegram_report.py (lines 271-310): the
same wallet loop, but `mm_holdings = sum(MM_DEFAULTS.values())` is
stored on the result and added into `total_holdings` inside this
function. -/
def load_holdings (f : Fetch) : Holdings :=
  let r := foldWallets f
  let mm_holdings := (MM_DEFAULTS.map Prod.snd).sum
  { r with
    mm_holdings := mm_holdings,
    total_sellable := r.liquid + r.liquid_bsc + r.vested_unclaimed
      + r.staked_expired + r.rewards,
    total_holdings := r.liquid + r.liquid_bsc + r.vested_unclaimed
      + r.locked_vesting + r.staked_total + r.rewards + mm_holdings }

/-! ### Staking rewards projection (telegram_report.py lines 58-102,
314-356) -/

/-- One row of the optional historical positions CSV, with the columns
`load_staking_rewards_projection` and `get_staked_positions` read. -/
structure PosRow where
  owner : String
  position_id : ℤ
  stake : ℚ
  net_deposited : ℚ
  expiry_ts : ℤ

/-- ASCII lower-casing of a string, as a list of character codes: the
semantics of Python's `str.lower()` on the ASCII address strings this
repository compares. -/
def lowerStr (s : String) : List ℕ :=
  s.data.map (fun c => if 65 ≤ c.toNat ∧ c.toNat ≤ 90 then c.toNat + 32 else c.toNat)

/-- The `FOUNDATION_STAKING_ADDR` constant of telegram_report.py. -/
def FOUNDATION_STAKING_ADDR : String := "0x715b1ddf5d6da6846eadb72d3d6f9d93148d0bb0"

/-- The `REWARDS_SCHEDULE` constant of telegram_report.py (lines
61-102): monthly reward-pool sizes keyed by date (dates in yyyymmdd
encoding; the two-decimal float pools are exact hundredths and are
embedded as the corresponding rationals). -/
def REWARDS_SCHEDULE : List (ℕ × ℚ) :=
  [(20251114, (62953204 : ℚ)/100),
  (20251214, (60681270 : ℚ)/100),
  (20260114, (57312966 : ℚ)/100),
  (20260214, (53131633 : ℚ)/100),
  (20260314, (48465438 : ℚ)/100),
  (20260414, (43645271 : ℚ)/100),
  (20260514, (38966923 : ℚ)/100),
  (20260614, (34663534 : ℚ)/100),
  (20260714, (30891421 : ℚ)/100),
  (20260814, (27729238 : ℚ)/100),
  (20260914, (25187793 : ℚ)/100),
  (20261014, (23226445 : ℚ)/100),
  (20261114, (21771758 : ℚ)/100),
  (20261214, (20734892 : ℚ)/100),
  (20270114, (20025463 : ℚ)/100),
  (20270214, (19560957 : ℚ)/100),
  (20270314, (19271863 : ℚ)/100),
  (20270414, (19103329 : ℚ)/100),
  (20270514, (19014457 : ℚ)/100),
  (20270614, (18976260 : ℚ)/100),
  (20270714, (18969136 : ℚ)/100),
  (20270814, (18980397 : ℚ)/100),
  (20270914, (19002168 : ℚ)/100),
  (20271014, (19029754 : ℚ)/100),
  (20271114, (19060461 : ℚ)/100),
  (20271214, (19092803 : ℚ)/100),
  (20280114, (19125987 : ℚ)/100),
  (20280214, (19159608 : ℚ)/100),
  (20280314, (19193464 : ℚ)/100),
  (20280414, (19227460 : ℚ)/100),
  (20280514, (19261550 : ℚ)/100),
  (20280614, (19295715 : ℚ)/100),
  (20280714, (19329947 : ℚ)/100),
  (20280814, (19364241 : ℚ)/100),
  (20280914, (19398598 : ℚ)/100),
  (20281014, (19433016 : ℚ)/100),
  (20281114, (19467495 : ℚ)/100),
  (20281214, (19502035 : ℚ)/100),
  (20290114, (19536636 : ℚ)/100),
  (20290214, (19571299 : ℚ)/100),
  (20290314, (19606024 : ℚ)/100),
  (20290414, (19640810 : ℚ)/100),
  (20290514, (19675657 : ℚ)/100),
  (20290614, (19710567 : ℚ)/100),
  (20290714, (19745538 : ℚ)/100),
  (20290814, (19780572 : ℚ)/100),
  (20290914, (19815668 : ℚ)/100),
  (20291014, (19850826 : ℚ)/100),
  (20291114, (19886046 : ℚ)/100),
  (20291214, (19921329 : ℚ)/100),
  (20300114, (19956674 : ℚ)/100),
  (20300214, (19992082 : ℚ)/100),
  (20300314, (20027553 : ℚ)/100),
  (20300414, (20063087 : ℚ)/100),
  (20300514, (20098684 : ℚ)/100),
  (20300614, (20134344 : ℚ)/100),
  (20300714, (20170067 : ℚ)/100),
  (20300814, (20205854 : ℚ)/100),
  (20300914, (20241704 : ℚ)/100),
  (20301014, (20277618 : ℚ)/100),
  (20301114, (20313596 : ℚ)/100),
  (20301214, (20349637 : ℚ)/100),
  (20310114, (20385743 : ℚ)/100),
  (20310214, (20421912 : ℚ)/100),
  (20310314, (20458146 : ℚ)/100),
  (20310414, (20494443 : ℚ)/100),
  (20310514, (20530806 : ℚ)/100),
  (20310614, (20567232 : ℚ)/100),
  (20310714, (20603724 : ℚ)/100),
  (20310814, (20640280 : ℚ)/100),
  (20310914, (20676901 : ℚ)/100),
  (20311014, (20713587 : ℚ)/100),
  (20311114, (20750338 : ℚ)/100),
  (20311214, (20787154 : ℚ)/100),
  (20320114, (20824036 : ℚ)/100),
  (20320214, (20860983 : ℚ)/100),
  (20320314, (20897996 : ℚ)/100),
  (20320414, (20935074 : ℚ)/100),
  (20320514, (20972218 : ℚ)/100),
  (20320614, (21009428 : ℚ)/100),
  (20320714, (21046704 : ℚ)/100),
  (20320814, (21084046 : ℚ)/100),
  (20320914, (21121454 : ℚ)/100),
  (20321014, (21158929 : ℚ)/100),
  (20321114, (21196470 : ℚ)/100),
  (20321214, (21234078 : ℚ)/100),
  (20330114, (21271753 : ℚ)/100),
  (20330214, (21309494 : ℚ)/100),
  (20330314, (21347303 : ℚ)/100),
  (20330414, (21385178 : ℚ)/100),
  (20330514, (21423121 : ℚ)/100),
  (20330614, (21461131 : ℚ)/100),
  (20330714, (21499208 : ℚ)/100),
  (20330814, (21537353 : ℚ)/100),
  (20330914, (21575566 : ℚ)/100),
  (20331014, (21613846 : ℚ)/100),
  (20331114, (21652195 : ℚ)/100),
  (20331214, (21690611 : ℚ)/100),
  (20340114, (21729095 : ℚ)/100),
  (20340214, (21767648 : ℚ)/100),
  (20340314, (21806270 : ℚ)/100),
  (20340414, (21844959 : ℚ)/100),
  (20340514, (21883718 : ℚ)/100),
  (20340614, (21922545 : ℚ)/100),
  (20340714, (21961441 : ℚ)/100),
  (20340814, (22000406 : ℚ)/100),
  (20340914, (22039440 : ℚ)/100),
  (20341014, (22078544 : ℚ)/100),
  (20341114, (22117717 : ℚ)/100),
  (20341214, (22156959 : ℚ)/100),
  (20350114, (22196271 : ℚ)/100),
  (20350214, (22235653 : ℚ)/100),
  (20350314, (22275104 : ℚ)/100),
  (20350414, (22314626 : ℚ)/100),
  (20350514, (22354218 : ℚ)/100),
  (20350614, (22393880 : ℚ)/100),
  (20350714, (22433612 : ℚ)/100),
  (20350814, (22473415 : ℚ)/100),
  (20350914, (22513288 : ℚ)/100),
  (20351014, (22553233 : ℚ)/100)]

/-- Three-letter month labels used by `strftime("%b %Y")`. -/
def monthAbbrev : ℕ → String
  | 1 => "Jan" | 2 => "Feb" | 3 => "Mar" | 4 => "Apr" | 5 => "May" | 6 => "Jun"
  | 7 => "Jul" | 8 => "Aug" | 9 => "Sep" | 10 => "Oct" | 11 => "Nov" | 12 => "Dec"
  | _ => ""

/-- The `"%b %Y"` label of a yyyymmdd-encoded date. -/
def monthLabel (d : ℕ) : String :=
  monthAbbrev (d / 100 % 100) ++ " " ++ toString (d / 10000)

/-- Embeds `load_staking_rewards_projection()` (telegram_report.py lines
314-356).  `today` is the current UTC date (yyyymmdd); `csv` is the
parsed historical positions CSV, or `none` when no CSV file could be
read.  The source's float literal `0.80` is the exact decimal 80/100. -/
def load_staking_rewards_projection (today : ℕ) (csv : Option (List PosRow)) :
    Option (List (String × ℚ)) :=
  match csv with
  | none => none
  | some pos_df =>
    let fdn := pos_df.filter (fun r => lowerStr r.owner = lowerStr FOUNDATION_STAKING_ADDR)
    let fdn_stake_weight := (fdn.map PosRow.stake).sum
    let total_stake_weight := (pos_df.map PosRow.stake).sum
    if total_stake_weight = 0 then none
    else
      let fdn_share := fdn_stake_weight / total_stake_weight
      let future := REWARDS_SCHEDULE.filter (fun e => today ≤ e.1)
      if future = [] then none
      else
        let next_3 := future.take 3
        some (next_3.map (fun e => (monthLabel e.1, e.2 * (80/100) * fdn_share)))

end Telegram

/-! ## Concrete inputs used by counterexamples and witnesses -/

/-- Seven qualifying pairs spread over only six distinct dates: the
date 5 occurs twice (with values 2 and 3). -/
def ex_dup_dates : List (ℕ × ℚ) :=
  [(0, 1), (1, 1), (2, 1), (3, 1), (4, 1), (5, 2), (5, 3)]

/-- Fourteen distinct qualifying days, every daily quote-volume 0. -/
def ex_zero_volumes : List (ℕ × ℚ) :=
  [(0, 0), (1, 0), (2, 0), (3, 0), (4, 0), (5, 0), (6, 0),
   (7, 0), (8, 0), (9, 0), (10, 0), (11, 0), (12, 0), (13, 0)]

/-- Fourteen distinct qualifying days, every daily quote-volume 1, so
that the two 7-day totals are equal and strictly positive. -/
def ex_equal_weeks : List (ℕ × ℚ) :=
  [(0, 1), (1, 1), (2, 1), (3, 1), (4, 1), (5, 1), (6, 1),
   (7, 1), (8, 1), (9, 1), (10, 1), (11, 1), (12, 1), (13, 1)]

/-- A fetch in which every balance, claimable amount and reward reads 0
and no staked positions exist. -/
def zeroFetch : Fetch :=
  { tokenBalance := fun _ => 0, bscBalance := fun _ => 0,
    vestedUnclaimed := fun _ => 0, positions := [], posRewards := fun _ => 0 }

/-- A fetch simulating the read inconsistency of the spec's example:
every vesting contract reads balance 90 but claimable 100. -/
def inconsistentFetch : Fetch :=
  { tokenBalance := fun _ => 90, bscBalance := fun _ => 0,
    vestedUnclaimed := fun _ => 100, positions := [], posRewards := fun _ => 0 }

/-- The example schedule of the spec: start 0, end 100, total 100. -/
def exampleSchedule : Schedule :=
  { name := "example", start := 0, vend := 100, total := 100 }

/-- A schedule with zero allocation whose start lies in the future. -/
def zeroTotalSchedule : Schedule :=
  { name := "zero", start := 10, vend := 20, total := 0 }

/-- A schedule with positive allocation whose start lies in the future
relative to the instant 0. -/
def futureSchedule : Schedule :=
  { name := "future", start := 100, vend := 200, total := 50 }

/-- A one-row positions CSV: the foundation address owns stake weight 1. -/
def fdnOnlyRows : List Telegram.PosRow :=
  [{ owner := "0x715b1ddf5d6da6846eadb72d3d6f9d93148d0bb0", position_id := 1,
     stake := 1, net_deposited := 1, expiry_ts := 0 }]

/-! ## Helper lemmas -/

theorem length_insertByDate (a : ℕ × ℚ) (l : List (ℕ × ℚ)) :
    (insertByDate a l).length = l.length + 1 := by
  induction l with
  | nil => rfl
  | cons b t ih =>
      simp only [insertByDate]
      split
      · simp [ih]
      · simp

theorem length_sortByDate (l : List (ℕ × ℚ)) : (sortByDate l).length = l.length := by
  induction l with
  | nil => rfl
  | cons a t ih => simp [sortByDate, length_insertByDate, ih]

theorem perm_insertByDate (a : ℕ × ℚ) (l : List (ℕ × ℚ)) :
    (insertByDate a l).Perm (a :: l) := by
  induction l with
  | nil => exact List.Perm.refl _
  | cons b t ih =>
      simp only [insertByDate]
      split
      · exact (ih.cons b).trans (List.Perm.swap a b t)
      · exact List.Perm.refl _

theorem perm_sortByDate (l : List (ℕ × ℚ)) : (sortByDate l).Perm l := by
  induction l with
  | nil => exact List.Perm.refl _
  | cons a t ih => exact (perm_insertByDate a (sortByDate t)).trans (ih.cons a)

theorem pairwise_ne_sortByDate {l : List (ℕ × ℚ)}
    (h : l.Pairwise (fun p q => p.1 ≠ q.1)) :
    (sortByDate l).Pairwise (fun p q => p.1 ≠ q.1) :=
  ((perm_sortByDate l).pairwise_iff (by intro x y hpq; exact Ne.symm hpq)).mpr h

theorem dedupKeepLast_eq_self {l : List (ℕ × ℚ)}
    (h : l.Pairwise (fun p q => p.1 ≠ q.1)) : dedupKeepLast l = l := by
  induction l with
  | nil => rfl
  | cons a t ih =>
      cases t with
      | nil => rfl
      | cons b t2 =>
          have hab : a.1 ≠ b.1 := (List.pairwise_cons.mp h).1 b (by simp)
          have ht : (b :: t2).Pairwise (fun p q => p.1 ≠ q.1) := (List.pairwise_cons.mp h).2
          simp only [dedupKeepLast, if_neg hab]
          exact congrArg (a :: ·) (ih ht)

theorem le_pyRound (q : ℚ) : Rat.floor q ≤ pyRound q := by
  unfold pyRound
  split_ifs <;> omega

theorem pyRound_le (q : ℚ) : pyRound q ≤ Rat.floor q + 1 := by
  unfold pyRound
  split_ifs <;> omega

theorem pyRound_mono {a b : ℚ} (h : a ≤ b) : pyRound a ≤ pyRound b := by
  have hfl : Rat.floor a ≤ Rat.floor b := Int.floor_mono h
  rcases lt_or_eq_of_le hfl with hlt | heq
  · have h1 := pyRound_le a
    have h2 := le_pyRound b
    omega
  · have key : a - (Rat.floor a : ℚ) ≤ b - (Rat.floor b : ℚ) := by
      rw [← heq]
      exact sub_le_sub_right h _
    unfold pyRound
    rw [← heq] at key ⊢
    split_ifs <;> first | omega | linarith

theorem foldl_vesting_eq_sum (now_ts target_ts : ℤ) (l : List Schedule) (acc : ℚ) :
    l.foldl
      (fun total v =>
        let rate : ℚ := v.total / ((v.vend - v.start : ℤ) : ℚ)
        let effective_end : ℤ := min target_ts v.vend
        if effective_end > now_ts then total + rate * ((effective_end - now_ts : ℤ) : ℚ)
        else total)
      acc
    = acc + (l.map (contribution now_ts target_ts)).sum := by
  induction l generalizing acc with
  | nil => simp
  | cons v t ih =>
      simp only [List.foldl_cons, List.map_cons, List.sum_cons, ih]
      unfold contribution
      split_ifs
      · ring
      · ring

theorem calculate_vesting_projection_eq_sum (now_ts target_ts : ℤ) (l : List Schedule) :
    calculate_vesting_projection now_ts target_ts l
      = pyRound ((l.map (contribution now_ts target_ts)).sum) := by
  unfold calculate_vesting_projection
  rw [foldl_vesting_eq_sum, zero_add]

theorem contribution_mono {t1 t2 : ℤ} (now_ts : ℤ) (v : Schedule)
    (hse : v.start < v.vend) (htot : 0 ≤ v.total) (h12 : t1 ≤ t2) :
    contribution now_ts t1 v ≤ contribution now_ts t2 v := by
  have hden : (0 : ℚ) < ((v.vend - v.start : ℤ) : ℚ) := by
    have h0 : (0 : ℤ) < v.vend - v.start := by omega
    exact_mod_cast h0
  have hrate : 0 ≤ v.total / ((v.vend - v.start : ℤ) : ℚ) :=
    div_nonneg htot (le_of_lt hden)
  have hmin : min t1 v.vend ≤ min t2 v.vend := min_le_min h12 (le_refl _)
  unfold contribution
  split_ifs with h1 h2 h3
  · apply mul_le_mul_of_nonneg_left _ hrate
    have hs : min t1 v.vend - now_ts ≤ min t2 v.vend - now_ts := by omega
    exact_mod_cast hs
  · exact absurd (lt_of_lt_of_le h1 hmin) h2
  · apply mul_nonneg hrate
    have hs : (0 : ℤ) ≤ min t2 v.vend - now_ts := by omega
    exact_mod_cast hs
  · exact le_refl 0

theorem sum_map_le_sum_map {α : Type} (f g : α → ℚ) (l : List α)
    (h : ∀ x ∈ l, f x ≤ g x) : (l.map f).sum ≤ (l.map g).sum := by
  induction l with
  | nil => simp
  | cons a t ih =>
      simp only [List.map_cons, List.sum_cons]
      have h1 := h a (by simp)
      have h2 := ih (fun x hx => h x (by simp [hx]))
      linarith

theorem sum_map_filter_partition (q : Position → Bool) (g : Position → ℚ)
    (l : List Position) :
    ((l.filter q).map g).sum + ((l.filter (fun p => ! q p)).map g).sum = (l.map g).sum := by
  induction l with
  | nil => simp
  | cons a t ih =>
      simp only [List.filter_cons]
      cases hqa : q a
      · simp only [hqa, Bool.not_false, if_neg, if_pos, Bool.false_eq_true, ite_false,
          ite_true, List.map_cons, List.sum_cons]
        rw [← ih]
        ring
      · simp only [hqa, Bool.not_true, Bool.false_eq_true, ite_false, ite_true,
          List.map_cons, List.sum_cons]
        rw [← ih]
        ring

theorem sum_map_nonneg {α : Type} (g : α → ℚ) (l : List α)
    (h : ∀ x ∈ l, 0 ≤ g x) : 0 ≤ (l.map g).sum := by
  induction l with
  | nil => simp
  | cons a t ih =>
      simp only [List.map_cons, List.sum_cons]
      have h1 := h a (by simp)
      have h2 := ih (fun x hx => h x (by simp [hx]))
      linarith

theorem foldWallets_eval (f : Fetch) :
    foldWallets f =
      { liquid := 0 + f.tokenBalance "0x715b1ddf5d6da6846eadb72d3d6f9d93148d0bb0"
          + f.tokenBalance "0xd782d294bc3e8b1a32ec9283b02893fd932d3ece",
        liquid_bsc := 0 + f.bscBalance "0x715b1ddf5d6da6846eadb72d3d6f9d93148d0bb0"
          + f.bscBalance "0xd782d294bc3e8b1a32ec9283b02893fd932d3ece",
        vested_unclaimed := 0 + f.vestedUnclaimed "0x4110d73ff4d4fe45af2762df2205ad95c8c9679b"
          + f.vestedUnclaimed "0x3dea6f0f4d3fcd9a706e8b6b0750ab2f57dec17a"
          + f.vestedUnclaimed "0x332e5b70e451bdeebd36b5d3442827aa52a42f80"
          + f.vestedUnclaimed "0xa3314896ae22caf4bfdcb0bd4c3cabce324d8f3e",
        locked_vesting := 0
          + max 0 (f.tokenBalance "0x4110d73ff4d4fe45af2762df2205ad95c8c9679b"
              - f.vestedUnclaimed "0x4110d73ff4d4fe45af2762df2205ad95c8c9679b")
          + max 0 (f.tokenBalance "0x3dea6f0f4d3fcd9a706e8b6b0750ab2f57dec17a"
              - f.vestedUnclaimed "0x3dea6f0f4d3fcd9a706e8b6b0750ab2f57dec17a")
          + max 0 (f.tokenBalance "0x332e5b70e451bdeebd36b5d3442827aa52a42f80"
              - f.vestedUnclaimed "0x332e5b70e451bdeebd36b5d3442827aa52a42f80")
          + max 0 (f.tokenBalance "0xa3314896ae22caf4bfdcb0bd4c3cabce324d8f3e"
              - f.vestedUnclaimed "0xa3314896ae22caf4bfdcb0bd4c3cabce324d8f3e"),
        staked_total := (f.positions.map Position.deposit).sum,
        staked_expired := ((f.positions.filter (fun p => p.is_expired)).map Position.deposit).sum,
        staked_locked := ((f.positions.filter (fun p => ! p.is_expired)).map Position.deposit).sum,
        rewards := (f.positions.map (fun p => f.posRewards p.pid)).sum,
        mm_holdings := 0,
        total_sellable := 0,
        total_holdings := 0 } := rfl

/-! ## Claim theorems -/

/-- C1: counterexample.  On the input `ex_dup_dates`, which contains two
pairs with the same date 5, the source normalizer keeps both duplicate
pairs in its 7-day window (volume_7d = 10, both values for day 5
counted), while the sort-and-deduplicate normalizer described by the
spec sees only six qualifying days and returns absence-of-value.  Hence
the claim that `_rolling_7day` deduplicates so that each calendar day
contributes exactly one quote-volume is false. -/
theorem rolling_7day_no_dedup_counterexample :
    rolling_7day 10 ex_dup_dates "X"
        = some { exchange := "X", volume_7d := 10, avg_daily := 10/7, wow_pct := none }
      ∧ rolling_7day_spec 10 ex_dup_dates "X" = none
      ∧ rolling_7day 10 ex_dup_dates "X" ≠ rolling_7day_spec 10 ex_dup_dates "X" := by
  with_unfolding_all decide

/-- C1 (amended): `_rolling_7day` sorts the qualifying pairs ascending
by date but performs no deduplication — duplicate-date pairs each
contribute their own quote-volume to the window sums.  On every input
whose qualifying pairs carry pairwise-distinct dates it agrees exactly
with the spec's sort-and-deduplicate normalizer. -/
theorem rolling_7day_refines_spec_on_distinct_dates :
    ∀ (today : ℕ) (l : List (ℕ × ℚ)) (exchange : String),
      (l.filter (fun p => p.1 < today)).Pairwise (fun p q => p.1 ≠ q.1) →
      rolling_7day today l exchange = rolling_7day_spec today l exchange := by
  intro today l exchange h
  have hded : dedupKeepLast (sortByDate (l.filter (fun p => p.1 < today)))
      = sortByDate (l.filter (fun p => p.1 < today)) :=
    dedupKeepLast_eq_self (pairwise_ne_sortByDate h)
  simp only [rolling_7day, rolling_7day_spec, hded]
  by_cases hl : l.length < 7
  · rw [if_pos hl]
    have hs : (sortByDate (l.filter (fun p => p.1 < today))).length < 7 := by
      rw [length_sortByDate]
      exact lt_of_le_of_lt (List.length_filter_le _ _) hl
    rw [if_pos hs]
  · rw [if_neg hl]

/-- C1: witness for the amended theorem, on a duplicate-free input with
seven qualifying days. -/
theorem rolling_7day_refines_spec_on_distinct_dates_witness :
    rolling_7day 10 [(0, 1), (1, 2), (2, 3), (3, 4), (4, 5), (5, 6), (6, 7)] "X"
      = rolling_7day_spec 10 [(0, 1), (1, 2), (2, 3), (3, 4), (4, 5), (5, 6), (6, 7)] "X" :=
  rolling_7day_refines_spec_on_distinct_dates 10 _ "X" (by decide)

/-- C2: counterexample.  With every fetch reading 0, the Telegram
aggregator's `total_holdings` is 868142 — the hard-coded market-maker
defaults (330940 + 537202) — and not the sum of its six on-chain
components, which is 0.  So that aggregator adds external market-maker
holdings inside `load_holdings`, not only at presentation time. -/
theorem telegram_total_holdings_includes_mm_counterexample :
    (Telegram.load_holdings zeroFetch).total_holdings = 868142
      ∧ (Telegram.load_holdings zeroFetch).liquid
          + (Telegram.load_holdings zeroFetch).liquid_bsc
          + (Telegram.load_holdings zeroFetch).vested_unclaimed
          + (Telegram.load_holdings zeroFetch).locked_vesting
          + (Telegram.load_holdings zeroFetch).staked_total
          + (Telegram.load_holdings zeroFetch).rewards = 0
      ∧ (Telegram.load_holdings zeroFetch).total_holdings
          ≠ (Telegram.load_holdings zeroFetch).liquid
            + (Telegram.load_holdings zeroFetch).liquid_bsc
            + (Telegram.load_holdings zeroFetch).vested_unclaimed
            + (Telegram.load_holdings zeroFetch).locked_vesting
            + (Telegram.load_holdings zeroFetch).staked_total
            + (Telegram.load_holdings zeroFetch).rewards := by
  simp only [Telegram.load_holdings, foldWallets_eval, zeroFetch, Telegram.MM_DEFAULTS]
  norm_num

/-- C2 (amended): for every fetch, the dashboard aggregator satisfies
`total_holdings = liquid + liquid_bsc + vested_unclaimed +
locked_vesting + staked_total + rewards` and `total_sellable = liquid +
liquid_bsc + vested_unclaimed + staked_expired + rewards`, with
market-maker holdings added only by the presentation-time adjustments
(`total_holdings_adj` adds them, `total_sellable_adj` does not); the
Telegram aggregator satisfies the same `total_sellable` formula but adds
its hard-coded market-maker defaults into `total_holdings` inside the
aggregator. -/
theorem aggregator_totals_formulas :
    ∀ (f : Fetch) (mm : ℚ),
      (Dashboard.load_holdings f).total_holdings
          = (Dashboard.load_holdings f).liquid + (Dashboard.load_holdings f).liquid_bsc
            + (Dashboard.load_holdings f).vested_unclaimed
            + (Dashboard.load_holdings f).locked_vesting
            + (Dashboard.load_holdings f).staked_total
            + (Dashboard.load_holdings f).rewards
      ∧ (Dashboard.load_holdings f).total_sellable
          = (Dashboard.load_holdings f).liquid + (Dashboard.load_holdings f).liquid_bsc
            + (Dashboard.load_holdings f).vested_unclaimed
            + (Dashboard.load_holdings f).staked_expired
            + (Dashboard.load_holdings f).rewards
      ∧ Dashboard.total_holdings_adj (Dashboard.load_holdings f) mm
          = (Dashboard.load_holdings f).total_holdings + mm
      ∧ Dashboard.total_sellable_adj (Dashboard.load_holdings f)
          = (Dashboard.load_holdings f).total_sellable
      ∧ (Telegram.load_holdings f).total_holdings
          = (Telegram.load_holdings f).liquid + (Telegram.load_holdings f).liquid_bsc
            + (Telegram.load_holdings f).vested_unclaimed
            + (Telegram.load_holdings f).locked_vesting
            + (Telegram.load_holdings f).staked_total
            + (Telegram.load_holdings f).rewards
            + (Telegram.load_holdings f).mm_holdings
      ∧ (Telegram.load_holdings f).mm_holdings = (Telegram.MM_DEFAULTS.map Prod.snd).sum
      ∧ (Telegram.load_holdings f).total_sellable
          = (Telegram.load_holdings f).liquid + (Telegram.load_holdings f).liquid_bsc
            + (Telegram.load_holdings f).vested_unclaimed
            + (Telegram.load_holdings f).staked_expired
            + (Telegram.load_holdings f).rewards :=
  fun _ _ => ⟨rfl, rfl, rfl, rfl, rfl, rfl, rfl⟩

/-- C7: counterexample.  `ex_dup_dates` has only six distinct qualifying
days (six distinct dates strictly before today = 10), yet the normalizer
returns a volume sample instead of absence-of-value, because the source
counts qualifying pairs, not distinct days. -/
theorem insufficient_history_counterexample :
    ((ex_dup_dates.filter (fun p => p.1 < 10)).map Prod.fst).dedup.length = 6
      ∧ rolling_7day 10 ex_dup_dates "X" ≠ none := by
  with_unfolding_all decide

/-- C7 (amended): the normalizer returns absence-of-value whenever fewer
than 7 qualifying pairs (counted with multiplicity, not as distinct
days) remain after excluding the current UTC date. -/
theorem rolling_7day_none_of_few_pairs :
    ∀ (today : ℕ) (l : List (ℕ × ℚ)) (exchange : String),
      (l.filter (fun p => p.1 < today)).length < 7 →
      rolling_7day today l exchange = none := by
  intro today l exchange h
  simp only [rolling_7day]
  by_cases hl : l.length < 7
  · rw [if_pos hl]
  · rw [if_neg hl]
    have hs : (sortByDate (l.filter (fun p => p.1 < today))).length < 7 := by
      rw [length_sortByDate]
      exact h
    rw [if_pos hs]

/-- C7: witness for the amended theorem. -/
theorem rolling_7day_none_of_few_pairs_witness :
    rolling_7day 10 [(0, 1), (1, 1), (2, 1)] "X" = none :=
  rolling_7day_none_of_few_pairs 10 _ "X" (by decide)

/-- C8: for every fetched balance/claimable pair, `get_vesting_info`
derives `locked = max(0, balance − vested_unclaimed)`, which is never
negative; in particular with balance 90 and claimable 100 (a simulated
read inconsistency) the locked amount is 0, and no error value is
produced. -/
theorem vesting_locked_clamped :
    ∀ (f : Fetch) (contract : String),
      (get_vesting_info f contract).locked
          = max 0 ((get_vesting_info f contract).balance
              - (get_vesting_info f contract).vested_unclaimed)
      ∧ 0 ≤ (get_vesting_info f contract).locked
      ∧ (get_vesting_info inconsistentFetch "0xv").balance = 90
      ∧ (get_vesting_info inconsistentFetch "0xv").vested_unclaimed = 100
      ∧ (get_vesting_info inconsistentFetch "0xv").locked = 0 :=
  fun _ _ => ⟨rfl, le_max_left 0 _, rfl, rfl, by with_unfolding_all decide⟩

/-- C3: counterexample.  Fourteen distinct qualifying days whose daily
quote-volumes are all 0: the two weekly totals are equal (both 0), yet
the normalizer reports `wow_pct` as absent rather than 0, because the
source only emits a week-over-week figure when the previous week's total
is strictly positive. -/
theorem wow_pct_zero_counterexample :
    ((ex_zero_volumes.take 7).map Prod.snd).sum = ((ex_zero_volumes.drop 7).map Prod.snd).sum
      ∧ rolling_7day 20 ex_zero_volumes "X"
          = some { exchange := "X", volume_7d := 0, avg_daily := 0, wow_pct := none } := by
  with_unfolding_all decide

/-- C3 (amended): for every input whose qualifying pairs sort to exactly
14 pairwise-distinct dates, if the most recent 7-day total equals the
previous 7-day total and that common total is strictly positive, the
normalizer returns a sample with `wow_pct = 0`. -/
theorem wow_pct_zero_of_equal_positive_weeks :
    ∀ (today : ℕ) (l : List (ℕ × ℚ)) (exchange : String),
      (sortByDate (l.filter (fun p => p.1 < today))).length = 14 →
      (sortByDate (l.filter (fun p => p.1 < today))).Pairwise (fun p q => p.1 ≠ q.1) →
      (((sortByDate (l.filter (fun p => p.1 < today))).drop 7).map Prod.snd).sum
          = (((sortByDate (l.filter (fun p => p.1 < today))).take 7).map Prod.snd).sum →
      0 < (((sortByDate (l.filter (fun p => p.1 < today))).take 7).map Prod.snd).sum →
      ∃ s, rolling_7day today l exchange = some s ∧ s.wow_pct = some 0 := by
  intro today l exchange hlen hdist hsum hpos
  have hl7 : ¬ l.length < 7 := by
    have h1 : (l.filter (fun p => p.1 < today)).length = 14 := by
      rw [← length_sortByDate]
      exact hlen
    have h2 := List.length_filter_le (fun p => decide (p.1 < today)) l
    omega
  refine ⟨{ exchange := exchange,
            volume_7d := (((sortByDate (l.filter (fun p => p.1 < today))).drop 7).map
              Prod.snd).sum,
            avg_daily := (((sortByDate (l.filter (fun p => p.1 < today))).drop 7).map
              Prod.snd).sum / 7,
            wow_pct := some 0 }, ?_, rfl⟩
  simp only [rolling_7day]
  rw [if_neg hl7, hlen]
  norm_num
  rw [List.map_drop, List.map_take] at hsum
  rw [List.map_take] at hpos
  exact ⟨hpos, Or.inl (by rw [hsum]; ring)⟩

/-- C3: witness for the amended theorem — fourteen distinct qualifying
days of volume 1 each, so both weekly totals are 7. -/
theorem wow_pct_zero_of_equal_positive_weeks_witness :
    ∃ s, rolling_7day 20 ex_equal_weeks "X" = some s ∧ s.wow_pct = some 0 :=
  wow_pct_zero_of_equal_positive_weeks 20 ex_equal_weeks "X"
    (by with_unfolding_all decide) (by with_unfolding_all decide)
    (by with_unfolding_all decide) (by with_unfolding_all decide)

/-- C4: for every fetch whose balances, claimable amounts, position
deposits and rewards are all non-negative, both aggregators produce a
snapshot with `total_sellable ≤ total_holdings`. -/
theorem total_sellable_le_total_holdings :
    ∀ f : Fetch,
      (∀ a, 0 ≤ f.tokenBalance a) → (∀ a, 0 ≤ f.bscBalance a) →
      (∀ a, 0 ≤ f.vestedUnclaimed a) → (∀ p ∈ f.positions, 0 ≤ p.deposit) →
      (∀ i, 0 ≤ f.posRewards i) →
      (Dashboard.load_holdings f).total_sellable ≤ (Dashboard.load_holdings f).total_holdings
      ∧ (Telegram.load_holdings f).total_sellable
          ≤ (Telegram.load_holdings f).total_holdings := by
  intro f htb hbsc hvu hdep hrew
  have m1 : (0 : ℚ) ≤ max 0 (f.tokenBalance "0x4110d73ff4d4fe45af2762df2205ad95c8c9679b"
      - f.vestedUnclaimed "0x4110d73ff4d4fe45af2762df2205ad95c8c9679b") := le_max_left 0 _
  have m2 : (0 : ℚ) ≤ max 0 (f.tokenBalance "0x3dea6f0f4d3fcd9a706e8b6b0750ab2f57dec17a"
      - f.vestedUnclaimed "0x3dea6f0f4d3fcd9a706e8b6b0750ab2f57dec17a") := le_max_left 0 _
  have m3 : (0 : ℚ) ≤ max 0 (f.tokenBalance "0x332e5b70e451bdeebd36b5d3442827aa52a42f80"
      - f.vestedUnclaimed "0x332e5b70e451bdeebd36b5d3442827aa52a42f80") := le_max_left 0 _
  have m4 : (0 : ℚ) ≤ max 0 (f.tokenBalance "0xa3314896ae22caf4bfdcb0bd4c3cabce324d8f3e"
      - f.vestedUnclaimed "0xa3314896ae22caf4bfdcb0bd4c3cabce324d8f3e") := le_max_left 0 _
  have hpart := sum_map_filter_partition (fun p => p.is_expired) Position.deposit f.positions
  have hlock : 0 ≤ ((f.positions.filter (fun p => ! p.is_expired)).map Position.deposit).sum := by
    apply sum_map_nonneg
    intro p hp
    exact hdep p (List.mem_of_mem_filter hp)
  have hmm : (0 : ℚ) ≤ (Telegram.MM_DEFAULTS.map Prod.snd).sum := by
    with_unfolding_all decide
  constructor
  · simp only [Dashboard.load_holdings, foldWallets_eval]
    linarith
  · simp only [Telegram.load_holdings, foldWallets_eval]
    linarith

/-- C4: witness at the all-zero fetch. -/
theorem total_sellable_le_total_holdings_witness :
    (Dashboard.load_holdings zeroFetch).total_sellable
        ≤ (Dashboard.load_holdings zeroFetch).total_holdings
      ∧ (Telegram.load_holdings zeroFetch).total_sellable
        ≤ (Telegram.load_holdings zeroFetch).total_holdings :=
  total_sellable_le_total_holdings zeroFetch (fun _ => le_refl 0) (fun _ => le_refl 0)
    (fun _ => le_refl 0) (fun p hp => absurd hp (List.not_mem_nil p)) (fun _ => le_refl 0)

/-- C5: for every `now`, target and schedule list with `end > start`,
the projection equals the per-schedule contributions (rate ×
(effective_end − now) when effective_end > now, else 0) summed across
schedules and rounded to the nearest integer once at the end; in
particular the spec's example schedule {start = 0, end = 100,
total = 100} with now = 50 and target = 100 contributes exactly 50. -/
theorem vesting_projection_closed_form :
    ∀ (now_ts target_ts : ℤ) (schedules : List Schedule),
      (∀ v ∈ schedules, v.start < v.vend) →
      calculate_vesting_projection now_ts target_ts schedules
          = pyRound ((schedules.map (contribution now_ts target_ts)).sum)
      ∧ contribution 50 100 exampleSchedule = 50
      ∧ calculate_vesting_projection 50 100 [exampleSchedule] = 50 := by
  intro now_ts target_ts schedules h
  refine ⟨calculate_vesting_projection_eq_sum now_ts target_ts schedules, ?_, ?_⟩
  · with_unfolding_all decide
  · with_unfolding_all decide

/-- C5: witness at the configured `VESTING_SCHEDULES`. -/
theorem vesting_projection_closed_form_witness :
    calculate_vesting_projection 1760000000 1774000000 VESTING_SCHEDULES
        = pyRound ((VESTING_SCHEDULES.map (contribution 1760000000 1774000000)).sum)
      ∧ contribution 50 100 exampleSchedule = 50
      ∧ calculate_vesting_projection 50 100 [exampleSchedule] = 50 :=
  vesting_projection_closed_form 1760000000 1774000000 VESTING_SCHEDULES
    (by with_unfolding_all decide)

/-- C6: for a fixed `now` and a fixed schedule list whose entries all
have `end > start` and `total ≥ 0`, the vesting projection is monotone
in the target date. -/
theorem vesting_projection_monotone :
    ∀ (now_ts t1 t2 : ℤ) (schedules : List Schedule),
      (∀ v ∈ schedules, v.start < v.vend ∧ 0 ≤ v.total) → t1 ≤ t2 →
      calculate_vesting_projection now_ts t1 schedules
        ≤ calculate_vesting_projection now_ts t2 schedules := by
  intro now_ts t1 t2 schedules h h12
  rw [calculate_vesting_projection_eq_sum, calculate_vesting_projection_eq_sum]
  apply pyRound_mono
  apply sum_map_le_sum_map
  intro v hv
  exact contribution_mono now_ts v (h v hv).1 (h v hv).2 h12

/-- C6: witness at the configured `VESTING_SCHEDULES`. -/
theorem vesting_projection_monotone_witness :
    calculate_vesting_projection 1760000000 1774000000 VESTING_SCHEDULES
      ≤ calculate_vesting_projection 1760000000 1823506200 VESTING_SCHEDULES :=
  vesting_projection_monotone 1760000000 1774000000 1823506200 VESTING_SCHEDULES
    (by with_unfolding_all decide) (by decide)

/-- C9: counterexample.  For the schedule {start = 10, end = 20,
total = 0} with now = 0 and target = 20 (start in the future,
effective_end > now), the contribution equals rate × (effective_end −
now) = 0 but does not strictly exceed rate × (effective_end − start) =
0: the claimed strict excess fails for a zero-allocation schedule. -/
theorem projection_accrues_before_start_counterexample :
    (0 : ℤ) < zeroTotalSchedule.start
      ∧ (0 : ℤ) < min 20 zeroTotalSchedule.vend
      ∧ contribution 0 20 zeroTotalSchedule = 0
      ∧ ¬ ((zeroTotalSchedule.total
              / ((zeroTotalSchedule.vend - zeroTotalSchedule.start : ℤ) : ℚ))
            * ((min 20 zeroTotalSchedule.vend - zeroTotalSchedule.start : ℤ) : ℚ)
          < contribution 0 20 zeroTotalSchedule) := by
  with_unfolding_all decide

/-- C9 (amended): for every schedule whose start lies in the future
(now < start) with effective_end = min(target, end) > now, the projector
adds rate × (effective_end − now), accruing over the whole interval from
`now` rather than clamping at the schedule's start; the contribution
strictly exceeds rate × (effective_end − start) provided the schedule's
allocation is strictly positive and end > start (for total = 0 the two
quantities coincide at 0). -/
theorem projection_accrues_before_start :
    ∀ (now_ts target_ts : ℤ) (v : Schedule),
      now_ts < v.start → now_ts < min target_ts v.vend →
      contribution now_ts target_ts v
          = (v.total / ((v.vend - v.start : ℤ) : ℚ))
            * ((min target_ts v.vend - now_ts : ℤ) : ℚ)
      ∧ (0 < v.total → v.start < v.vend →
          (v.total / ((v.vend - v.start : ℤ) : ℚ))
              * ((min target_ts v.vend - v.start : ℤ) : ℚ)
            < contribution now_ts target_ts v) := by
  intro now_ts target_ts v hns hne
  have heq : contribution now_ts target_ts v
      = (v.total / ((v.vend - v.start : ℤ) : ℚ))
        * ((min target_ts v.vend - now_ts : ℤ) : ℚ) := by
    unfold contribution
    rw [if_pos hne]
  refine ⟨heq, ?_⟩
  intro htot hse
  rw [heq]
  have hrate : 0 < v.total / ((v.vend - v.start : ℤ) : ℚ) := by
    apply div_pos htot
    have h0 : (0 : ℤ) < v.vend - v.start := by omega
    exact_mod_cast h0
  apply mul_lt_mul_of_pos_left _ hrate
  have hi : min target_ts v.vend - v.start < min target_ts v.vend - now_ts := by omega
  exact_mod_cast hi

/-- C9: witness for the amended theorem on a positive-allocation
schedule starting in the future. -/
theorem projection_accrues_before_start_witness :
    contribution 0 150 futureSchedule
        = (futureSchedule.total / ((futureSchedule.vend - futureSchedule.start : ℤ) : ℚ))
          * ((min 150 futureSchedule.vend - 0 : ℤ) : ℚ)
      ∧ (futureSchedule.total / ((futureSchedule.vend - futureSchedule.start : ℤ) : ℚ))
          * ((min 150 futureSchedule.vend - futureSchedule.start : ℤ) : ℚ)
        < contribution 0 150 futureSchedule := by
  have h := projection_accrues_before_start 0 150 futureSchedule
    (by with_unfolding_all decide) (by with_unfolding_all decide)
  exact ⟨h.1, h.2 (by with_unfolding_all decide) (by with_unfolding_all decide)⟩

/-- C10: with no readable CSV the digest's staking-rewards projection
returns absence-of-value; with a readable CSV whose total stake weight
is 0 it returns absence-of-value; and with a readable CSV whose total
stake weight is strictly positive (and at least three schedule dates on
or after today remaining), it returns, for each of the next three
rewards-schedule dates, the scheduled monthly pool × 0.80 × (foundation
stake weight ÷ total stake weight). -/
theorem staking_rewards_projection_spec :
    ∀ (today : ℕ) (rows : List Telegram.PosRow),
      Telegram.load_staking_rewards_projection today none = none
      ∧ ((rows.map Telegram.PosRow.stake).sum = 0 →
          Telegram.load_staking_rewards_projection today (some rows) = none)
      ∧ (0 < (rows.map Telegram.PosRow.stake).sum →
          3 ≤ (Telegram.REWARDS_SCHEDULE.filter (fun e => today ≤ e.1)).length →
          Telegram.load_staking_rewards_projection today (some rows)
            = some (((Telegram.REWARDS_SCHEDULE.filter (fun e => today ≤ e.1)).take 3).map
                (fun e => (Telegram.monthLabel e.1,
                  e.2 * (80/100)
                    * (((rows.filter (fun r => Telegram.lowerStr r.owner
                            = Telegram.lowerStr Telegram.FOUNDATION_STAKING_ADDR)).map
                          Telegram.PosRow.stake).sum
                        / (rows.map Telegram.PosRow.stake).sum))))) := by
  intro today rows
  refine ⟨rfl, ?_, ?_⟩
  · intro hz
    simp only [Telegram.load_staking_rewards_projection]
    rw [if_pos hz]
  · intro hpos hlen
    have hne : Telegram.REWARDS_SCHEDULE.filter (fun e => today ≤ e.1) ≠ [] := by
      intro hempty
      rw [hempty] at hlen
      simp at hlen
    simp only [Telegram.load_staking_rewards_projection]
    rw [if_neg (ne_of_gt hpos), if_neg hne]

/-- C10: witness — a one-row CSV owned by the foundation address, run on
2026-10-01 (so the next three schedule dates are Oct/Nov/Dec 2026). -/
theorem staking_rewards_projection_spec_witness :
    Telegram.load_staking_rewards_projection 20261001 (some fdnOnlyRows)
      = some (((Telegram.REWARDS_SCHEDULE.filter (fun e => 20261001 ≤ e.1)).take 3).map
          (fun e => (Telegram.monthLabel e.1,
            e.2 * (80/100)
              * (((fdnOnlyRows.filter (fun r => Telegram.lowerStr r.owner
                      = Telegram.lowerStr Telegram.FOUNDATION_STAKING_ADDR)).map
                    Telegram.PosRow.stake).sum
                  / (fdnOnlyRows.map Telegram.PosRow.stake).sum)))) :=
  (staking_rewards_projection_spec 20261001 fdnOnlyRows).2.2
    (by with_unfolding_all decide) (by decide)
